import Mathlib

/-!
Verification of the M-Bus master CLI controller (src/mbus-master.c)

Shallow embedding of the Discovery & Addressing Controller and the
Query/Record Decoder of `mbus-master.c`.  The libmbus Transport Adapter
(send/receive/select/purge primitives) is external to the repository; it
is modelled as a script of outcomes (`Env`), one queue per primitive,
consumed in call order.  Every modelled C function threads the `Env`
explicitly and appends the bus/console actions it performs to a trace
(`List Action`), so that theorems can speak about which requests were
sent and in which order.  An exhausted script queue behaves as a
transport failure (`headD false` / `headD (error, zeroed frame)`); all
theorems supply scripts long enough that this default is never reached.
-/

namespace MbusMaster

/-! ## C string helpers used by the CLI (`strsep`, `atoi`, `isxdigit`) -/

/-- The delimiter set `" \n\t"` passed to every `strsep` call in the file. -/
def isDelim (c : Char) : Bool :=
  c = ' ' || c = '\n' || c = '\t'

/-- Core of `strsep`: split a character list at the first delimiter.
Returns the leading token and, when a delimiter was found, the remainder
after it (C sets `*stringp` past the delimiter); `none` models the C
setting `*stringp = NULL` when no delimiter occurs. -/
def strsepGo : List Char → List Char × Option (List Char)
  | [] => ([], none)
  | c :: rest =>
    if isDelim c then ([], some rest)
    else
      let (tok, r) := strsepGo rest
      (c :: tok, r)

/-- `strsep(&args, " \n\t")` on a non-NULL string. -/
def strsep (s : String) : String × Option String :=
  let (tok, r) := strsepGo s.toList
  (String.mk tok, r.map String.mk)

/-- `strsep(&args, " \n\t")` where `args` may be NULL (returns NULL then). -/
def strsepOpt : Option String → Option String × Option String
  | none => (none, none)
  | some s =>
    let (tok, r) := strsep s
    (some tok, r)

/-- C `isspace` for the default locale. -/
def isSpaceC (c : Char) : Bool :=
  c = ' ' || c = '\t' || c = '\n' || c = '\x0b' || c = '\x0c' || c = '\r'

/-- Accumulate decimal digits exactly as `atoi` does, stopping at the
first non-digit. -/
def digitsVal : List Char → Int → Int
  | [], acc => acc
  | c :: rest, acc =>
    if c.isDigit then digitsVal rest (acc * 10 + (c.toNat - '0'.toNat : Nat))
    else acc

/-- C `atoi`: skip leading whitespace, optional sign, then decimal digits
(value 0 when no digits follow). -/
def atoi (s : String) : Int :=
  match s.toList.dropWhile isSpaceC with
  | '-' :: rest => - digitsVal rest 0
  | '+' :: rest => digitsVal rest 0
  | cs => digitsVal cs 0

/-- C `isxdigit`. -/
def isXDigit (c : Char) : Bool :=
  c.isDigit || ('a' ≤ c && c ≤ 'f') || ('A' ≤ c && c ≤ 'F')

/-- `mbus_is_secondary_address` (libmbus): non-NULL, exactly 16
characters, all hex digits. -/
def mbus_is_secondary_address (s : String) : Bool :=
  s.length = 16 && s.toList.all isXDigit

/-! ## libmbus constants used by the controller -/
def MBUS_ADDRESS_NETWORK_LAYER : Int := 253
def MBUS_ADDRESS_BROADCAST_NOREPLY : Int := 255
def MBUS_MAX_PRIMARY_SLAVES : Int := 250
def MBUS_FRAME_TYPE_ACK : Int := 1

/-! ## Transport-level data: receive results, frames, parsed frame data -/

/-- `MBUS_RECV_RESULT_*`: OK 0, ERROR -1, INVALID -2, TIMEOUT -3, RESET -4. -/
inductive RecvRes where
  | ok
  | error
  | invalid
  | timeout
  | reset
  deriving DecidableEq

/-- Numeric code of a receive result (the C `int` values). -/
def recvCode : RecvRes → Int
  | .ok => 0
  | .error => -1
  | .invalid => -2
  | .timeout => -3
  | .reset => -4

/-- `mbus_select_secondary_address` outcomes (`MBUS_PROBE_*`). -/
inductive ProbeRes where
  | error
  | nothing
  | single
  | collision
  deriving DecidableEq

/-- A decoded record as produced by `mbus_parse_variable_record`
(`mbus_record`).  `numVal` stands in for the C `double value.real_val`;
it is only ever passed through to output, never computed with. -/
structure MRecord where
  isNumeric : Bool
  numVal : Int
  strVal : String
  unit : String
  deriving DecidableEq

/-- One node of the `mbus_data_record` linked list.  `parsed` is the
(deterministic) result `mbus_parse_variable_record` would produce for
this node: `none` models a record-level parse failure returning NULL. -/
structure DataRecord where
  dif : Nat
  vif : Nat
  parsed : Option MRecord
  deriving DecidableEq

/-- `data.type`: `MBUS_DATA_TYPE_FIXED` or `MBUS_DATA_TYPE_VARIABLE`. -/
inductive MDataType where
  | fixed
  | variable
  deriving DecidableEq

/-- Result of `mbus_frame_data_parse` on a reply: the response shape and
the ordered record list (`data.data_var.record`).  `xmlOk` is whether
`mbus_frame_data_xml` succeeds on this data (deterministic in the data). -/
structure FrameData where
  dtype : MDataType
  records : List DataRecord
  xmlOk : Bool
  deriving DecidableEq

/-- An `mbus_frame` as far as the controller inspects it: its frame type
(`mbus_frame_type`) and the result `mbus_frame_data_parse` would yield on
it (`none` models a parse error returning -1). -/
structure Frame where
  frameType : Int
  parsed : Option FrameData
  deriving DecidableEq

/-- A zeroed frame (`memset(reply, 0, sizeof(mbus_frame))`). -/
def defaultFrame : Frame := { frameType := 0, parsed := none }

/-- `mbus_frame_type`. -/
def mbus_frame_type (f : Frame) : Int := f.frameType

/-! ## The transport script and the action trace -/

/-- Scripted outcomes of the external libmbus transport, one queue per
primitive, consumed in call order.  `maxSearchRetry` models
`handle->max_search_retry`.  `probeFound`/`probeOk` script
`mbus_probe_secondary_range`: the (address, mask) pairs it reports to the
`found_device` callback, and whether the probe itself succeeds. -/
structure Env where
  maxSearchRetry : Nat
  pings : List Bool
  recvs : List (RecvRes × Frame)
  selects : List ProbeRes
  requests : List Bool
  sets : List Bool
  purges : List Bool
  probeFound : List (String × String)
  probeOk : Bool
  deriving DecidableEq

/-- Observable actions of a run: bus I/O performed and the console
output the claims mention. -/
inductive Action where
  | ping (address : Int) (purgeFlag : Bool)
  | recv (rc : RecvRes) (f : Frame)
  | selectSec (mask : String) (res : ProbeRes)
  | request (address : Int)
  | setPrimary (curr next : Int)
  | purge
  | warnCollision (address : Int)
  | foundPrimary (address : Int)
  | warnInUse (address : Int)
  | warnNoReply
  | warnBadReply
  | logFound (addr mask : String)
  | hexDump
  | printXml
  | printData
  | printNum (v : Int)
  | printStr (s : String)
  | printUnit (u : String)
  | freeRecords
  | frameFree
  | printEntry (primary : Int) (secondary : Option String)
  deriving DecidableEq

/-- Consume one `mbus_send_ping_frame` outcome (true = send succeeded). -/
def takePing (e : Env) : Bool × Env :=
  (e.pings.headD false, { e with pings := e.pings.tail })

/-- Consume one `mbus_recv_frame` outcome. -/
def takeRecv (e : Env) : (RecvRes × Frame) × Env :=
  (e.recvs.headD (RecvRes.error, defaultFrame), { e with recvs := e.recvs.tail })

/-- Consume one `mbus_select_secondary_address` outcome. -/
def takeSelect (e : Env) : ProbeRes × Env :=
  (e.selects.headD ProbeRes.error, { e with selects := e.selects.tail })

/-- Consume one `mbus_send_request_frame` outcome. -/
def takeRequest (e : Env) : Bool × Env :=
  (e.requests.headD false, { e with requests := e.requests.tail })

/-- Consume one `mbus_set_primary_address` outcome (send success). -/
def takeSet (e : Env) : Bool × Env :=
  (e.sets.headD false, { e with sets := e.sets.tail })

/-- Consume one `mbus_purge_frames` outcome (true = leftover data). -/
def takePurge (e : Env) : Bool × Env :=
  (e.purges.headD false, { e with purges := e.purges.tail })

/-! ## The Device Registry -/
def REG_NUM_MAX : Nat := 50

/-- `struct reg`: `secondary` is a `char *`, NULL before the slot is
used, hence `Option String`. -/
structure Reg where
  primary : Int
  secondary : Option String
  deriving DecidableEq

/-- A zeroed registry slot (the static array is zero-initialised). -/
def defaultReg : Reg := { primary := 0, secondary := none }

/-- The static array `registry[REG_NUM_MAX]` together with `num`.  The
C array is zero-initialised, so the initial state has 50 zeroed slots. -/
structure Registry where
  num : Nat
  slots : List Reg
  deriving DecidableEq

def initRegistry : Registry :=
  { num := 0, slots := List.replicate REG_NUM_MAX defaultReg }

/-- Loop body of `reg_find_secondary`: first index whose `secondary`
compares equal (`strcmp == 0`); a NULL `secondary` never compares equal
(in C such slots are never reached because the loop stops at `num`). -/
def findSecGo (l : List Reg) (s : String) (i : Nat) : Int :=
  match l with
  | [] => -1
  | r :: rest =>
    if r.secondary = some s then Int.ofNat i else findSecGo rest s (i + 1)

/-- `reg_find_secondary`: scan slots `0 ≤ i < num`, return the first
match or -1. -/
def reg_find_secondary (r : Registry) (s : String) : Int :=
  findSecGo (r.slots.take r.num) s 0

/-- `reg_add`: full registry is -1; an already-present secondary is a
silent success; otherwise `strdup` the string into slot `num` (only the
`secondary` field is written; `primary` keeps the slot's value) and bump
`num`. -/
def reg_add (r : Registry) (s : String) : Int × Registry :=
  if r.num ≥ REG_NUM_MAX then (-1, r)
  else if reg_find_secondary r s ≥ 0 then (0, r)
  else
    (0, { num := r.num + 1,
          slots := r.slots.set r.num
            { r.slots.getD r.num defaultReg with secondary := some s } })

/-! ## Addressing Controller -/

/-! ## Addressing Controller -/

/-- `init_slaves`: ping the network-layer address then the no-reply
broadcast address (both with the purge-echo flag); a failed send aborts
with -1 and no retry. -/
def init_slaves (e : Env) : Int × Env × List Action :=
  let p1 := takePing e
  let t1 := [Action.ping MBUS_ADDRESS_NETWORK_LAYER true]
  if p1.1 = false then (-1, p1.2, t1)
  else
    let p2 := takePing p1.2
    let t2 := t1 ++ [Action.ping MBUS_ADDRESS_BROADCAST_NOREPLY true]
    if p2.1 = false then (-1, p2.2, t2)
    else (0, p2.2, t2)

/-- Loop of `ping_address`: `fuel` is the number of retries still
allowed after the current attempt (the C loop runs
`max_search_retry + 1` times).  A failed send returns ERROR at once; a
non-timeout receive is returned; a timeout with retries left loops. -/
def ping_address_go (address : Int) (fuel : Nat) (e : Env) :
    (RecvRes × Frame) × Env × List Action :=
  let p := takePing e
  let t1 := [Action.ping address false]
  if p.1 = false then ((RecvRes.error, defaultFrame), p.2, t1)
  else
    let r := takeRecv p.2
    let t2 := t1 ++ [Action.recv r.1.1 r.1.2]
    if r.1.1 = RecvRes.timeout then
      if _h : fuel = 0 then (r.1, r.2, t2)
      else
        let q := ping_address_go address (fuel - 1) r.2
        (q.1, q.2.1, t2 ++ q.2.2)
    else (r.1, r.2, t2)
termination_by fuel
decreasing_by omega

/-- `ping_address`: ping with up to `handle->max_search_retry`
retransmissions on timeout. -/
def ping_address (address : Int) (e : Env) :
    (RecvRes × Frame) × Env × List Action :=
  ping_address_go address e.maxSearchRetry e

/-- Outcome of one iteration of the scan loop: continue with the
current `rc`, or break out of the loop. -/
inductive StepOut where
  | cont (rc : Int)
  | brk (rc : Int)
  deriving DecidableEq

/-- One iteration of the `mbus_scan_1st_address_range` loop for address
`a`: classify the ping outcome; on INVALID purge and report a collision;
on ERROR break; on an ACK reply purge once more and report a collision
when the purge found leftover data, otherwise report the device found. -/
def scan_address (a : Int) (e : Env) : StepOut × Env × List Action :=
  let pr := ping_address a e
  let rc := pr.1.1
  let reply := pr.1.2
  let e1 := pr.2.1
  let t1 := pr.2.2
  if rc = RecvRes.timeout then (StepOut.cont (recvCode rc), e1, t1)
  else if rc = RecvRes.invalid then
    let pu := takePurge e1
    (StepOut.cont (recvCode rc), pu.2, t1 ++ [Action.purge, Action.warnCollision a])
  else if rc = RecvRes.error then (StepOut.brk (recvCode rc), e1, t1)
  else
    if mbus_frame_type reply = MBUS_FRAME_TYPE_ACK then
      let pu := takePurge e1
      if pu.1 then
        (StepOut.cont (recvCode rc), pu.2, t1 ++ [Action.purge, Action.warnCollision a])
      else
        (StepOut.cont 0, pu.2, t1 ++ [Action.purge, Action.foundPrimary a])
    else (StepOut.cont (recvCode rc), e1, t1)

/-- The scan loop over a list of addresses, threading the C `rc`
variable (initially 1).  The `running` cancellation flag is modelled as
always true: no claim concerns cancellation. -/
def scan_range_go (addrs : List Int) (rc : Int) (e : Env) :
    Int × Env × List Action :=
  match addrs with
  | [] => (rc, e, [])
  | a :: rest =>
    let st := scan_address a e
    match st.1 with
    | StepOut.brk rc' => (rc', st.2.1, st.2.2)
    | StepOut.cont rc' =>
      let k := scan_range_go rest rc' st.2.1
      (k.1, k.2.1, st.2.2 ++ k.2.2)

/-- `mbus_scan_1st_address_range`: addresses 0 to
`MBUS_MAX_PRIMARY_SLAVES` in ascending order. -/
def mbus_scan_1st_address_range (e : Env) : Int × Env × List Action :=
  scan_range_go ((List.range 251).map Int.ofNat) 1 e

/-- `secondary_select`: a secondary select that must match exactly one
device; COLLISION, NOTHING and ERROR all abort with -1, SINGLE resolves
to the network-layer pseudo-address. -/
def secondary_select (mask : String) (e : Env) : Int × Env × List Action :=
  let p := takeSelect e
  let t := [Action.selectSec mask p.1]
  match p.1 with
  | ProbeRes.single => (MBUS_ADDRESS_NETWORK_LAYER, p.2, t)
  | _ => (-1, p.2, t)

/-- `parse_addr`: missing argument is an error (returned as 1); then
re-initialize the bus; a well-formed secondary mask is selected and
resolves to the network-layer address; otherwise `atoi` the token and
require a primary address in 1..255.  Note the error paths return the
constant 1, which is not distinguishable from primary address 1. -/
def parse_addr (args : Option String) (e : Env) : Int × Env × List Action :=
  match args with
  | none => (1, e, [])
  | some s =>
    let ini := init_slaves e
    if ini.1 ≠ 0 then (1, ini.2.1, ini.2.2)
    else if mbus_is_secondary_address s then
      let sel := secondary_select s ini.2.1
      if sel.1 = -1 then (1, sel.2.1, ini.2.2 ++ sel.2.2)
      else (MBUS_ADDRESS_NETWORK_LAYER, sel.2.1, ini.2.2 ++ sel.2.2)
    else
      let a := atoi s
      if a < 1 ∨ a > 255 then (1, ini.2.1, ini.2.2)
      else (a, ini.2.1, ini.2.2)

/-! ## Query Engine -/

/-- The record-walking loop of `query_device`:
`for (entry = head, i = 0; entry && i < record_id; entry = entry->next, i++);`
returns the final `i` and the entry the cursor stopped on (`none` = the
list was exhausted). -/
def walk (recs : List DataRecord) (i : Int) (rid : Int) :
    Int × Option DataRecord :=
  match recs with
  | [] => (i, none)
  | r :: rest => if i < rid then walk rest (i + 1) rid else (i, some r)

/-- The record-selection tail of `query_device` for a variable-format
reply: walk the list to the requested index; a cursor/index mismatch
frees the (non-empty) record list and fails; otherwise print the decoded
record when `mbus_parse_variable_record` yields one (on a NULL entry it
yields NULL and nothing is printed), free the record list when
non-empty, and free the continuation frames. -/
def query_records (verbose : Bool) (data : FrameData) (record_id : Int) :
    Int × List Action :=
  let w := walk data.records 0 record_id
  if w.1 ≠ record_id then
    let t4 := if data.records ≠ [] then [Action.freeRecords] else []
    (1, t4 ++ [Action.frameFree])
  else
    let t4 :=
      match w.2.bind (fun en => en.parsed) with
      | none => []
      | some r =>
        (if r.isNumeric then [Action.printNum r.numVal]
         else [Action.printStr r.strVal])
          ++ (if verbose then [Action.printUnit r.unit] else [])
    let t5 := if data.records ≠ [] then t4 ++ [Action.freeRecords] else t4
    (0, t5 ++ [Action.frameFree])

/-- `query_device`: split off the address token, resolve it (the result
of `parse_addr` is used as the address unconditionally, even when it is
the error constant 1), send a data request, receive; without a record
argument dump raw/XML/tabular output; with a record argument select the
requested record (`query_records`). -/
def query_device (verbose xml : Bool) (args : Option String) (e : Env) :
    Int × Env × List Action :=
  let sp := strsepOpt args
  let pa := parse_addr sp.1 e
  let address := pa.1
  let rq := takeRequest pa.2.1
  let t2 := pa.2.2 ++ [Action.request address]
  if rq.1 = false then (1, rq.2, t2)
  else
    let rv := takeRecv rq.2
    let rc := rv.1.1
    let reply := rv.1.2
    let t3 := t2 ++ [Action.recv rc reply]
    if rc ≠ RecvRes.ok then (1, rv.2, t3)
    else if sp.2 = none ∧ verbose = false ∧ xml = false then
      (0, rv.2, t3 ++ [Action.hexDump])
    else
      match reply.parsed with
      | none => (1, rv.2, t3)
      | some data =>
        match sp.2 with
        | none =>
          if xml then
            if data.xmlOk = false then (1, rv.2, t3)
            else
              let t4 := t3 ++ [Action.printXml]
              (0, rv.2, if data.records ≠ [] then t4 ++ [Action.freeRecords] else t4)
          else
            let t4 := t3 ++ [Action.printData]
            (0, rv.2, if data.records ≠ [] then t4 ++ [Action.freeRecords] else t4)
        | some idxs =>
          match data.dtype with
          | MDataType.fixed => (0, rv.2, t3 ++ [Action.frameFree])
          | MDataType.variable =>
            let qr := query_records verbose data (atoi idxs)
            (qr.1, rv.2, t3 ++ qr.2)

/-! ## Primary address reassignment -/

/-- The retry loop of `set_address` (C: `for (retries = 3; retries > 0;
retries--)`).  Each attempt re-sends the set-primary-address command; a
failed send aborts (`none`, without the no-reply warning); a timeout
with `retries > 1` loops (this is the C `continue` after the decrement),
a timeout on the last attempt aborts with the no-reply warning; any
other receive result breaks out with the reply frame. -/
def setRetryLoop (curr next : Int) (retries : Nat) (e : Env) :
    Option Frame × Env × List Action :=
  let sp := takeSet e
  let t1 := [Action.setPrimary curr next]
  if sp.1 = false then (none, sp.2, t1)
  else
    let rv := takeRecv sp.2
    let t2 := t1 ++ [Action.recv rv.1.1 rv.1.2]
    if rv.1.1 = RecvRes.timeout then
      if _h : retries > 1 then
        let k := setRetryLoop curr next (retries - 1) rv.2
        (k.1, k.2.1, t2 ++ k.2.2)
      else (none, rv.2, t2 ++ [Action.warnNoReply])
    else (some rv.1.2, rv.2, t2)
termination_by retries
decreasing_by omega

/-- Final phase of `set_address`: run the retry loop (3 attempts),
require an ACK reply, and on success patch the registry entry `id` in
place when `id > -1 && id < REG_NUM_MAX` (only its `primary` field is
written). -/
def set_address_final (reg : Registry) (id curr next : Int) (e : Env) :
    Int × Registry × Env × List Action :=
  let lp := setRetryLoop curr next 3 e
  match lp.1 with
  | none => (1, reg, lp.2.1, lp.2.2)
  | some f =>
    if mbus_frame_type f ≠ MBUS_FRAME_TYPE_ACK then
      (1, reg, lp.2.1, lp.2.2 ++ [Action.warnBadReply])
    else if id > -1 ∧ id < (REG_NUM_MAX : Int) then
      let old := reg.slots.getD id.toNat defaultReg
      (0, { reg with slots := reg.slots.set id.toNat { old with primary := next } },
       lp.2.1, lp.2.2)
    else (0, reg, lp.2.1, lp.2.2)

/-- Middle phase of `set_address`, after argument parsing: validate the
new address range, re-initialize the bus, send the verification ping to
`next` and require a TIMEOUT (any reply means the address is in use),
then select the secondary target when `curr` is the network-layer
address, and hand over to the retry loop. -/
def set_address_checked (reg : Registry) (mask : String) (id curr next : Int)
    (e : Env) : Int × Registry × Env × List Action :=
  if next < 1 ∨ next > 250 then (1, reg, e, [])
  else
    let ini := init_slaves e
    if ini.1 ≠ 0 then (1, reg, ini.2.1, ini.2.2)
    else
      let pg := takePing ini.2.1
      let t2 := ini.2.2 ++ [Action.ping next false]
      if pg.1 = false then (1, reg, pg.2, t2)
      else
        let rv := takeRecv pg.2
        let t3 := t2 ++ [Action.recv rv.1.1 rv.1.2]
        if rv.1.1 ≠ RecvRes.timeout then
          (1, reg, rv.2, t3 ++ [Action.warnInUse next])
        else if curr = MBUS_ADDRESS_NETWORK_LAYER then
          let sel := secondary_select mask rv.2
          if sel.1 = -1 then (1, reg, sel.2.1, t3 ++ sel.2.2)
          else
            let fin := set_address_final reg id curr next sel.2.1
            (fin.1, fin.2.1, fin.2.2.1, t3 ++ sel.2.2 ++ fin.2.2.2)
        else
          let fin := set_address_final reg id curr next rv.2
          (fin.1, fin.2.1, fin.2.2.1, t3 ++ fin.2.2.2)

/-- `set_address`: parse `<MASK | ADDR> NEW_ADDR`; a missing or empty
second token is a usage error; a non-mask first token must be a primary
address 0..250 (with registry id -1); a mask resolves later via select
and its registry id is looked up now. -/
def set_address (reg : Registry) (args : Option String) (e : Env) :
    Int × Registry × Env × List Action :=
  match args with
  | none => (1, reg, e, [])
  | some s =>
    let sp := strsep s
    let mask := sp.1
    match sp.2 with
    | none => (1, reg, e, [])
    | some rest =>
      if rest = "" then (1, reg, e, [])
      else
        if !(mbus_is_secondary_address mask) then
          let curr := atoi mask
          if curr < 0 ∨ curr > 250 then (1, reg, e, [])
          else set_address_checked reg mask (-1) curr (atoi rest) e
        else
          set_address_checked reg mask (reg_find_secondary reg mask)
            MBUS_ADDRESS_NETWORK_LAYER (atoi rest) e

/-! ## Secondary probing -/

/-- `found_device`, the `mbus_probe_secondary_range` callback: add the
discovered address to the registry; the "Found" log line is emitted only
when `reg_add` returns nonzero (i.e. only when the registry is full). -/
def found_device (reg : Registry) (addr mask : String) :
    Int × Registry × List Action :=
  let ra := reg_add reg addr
  if ra.1 ≠ 0 then (0, ra.2, [Action.logFound addr mask])
  else (0, ra.2, [])

/-- `mbus_probe_secondary_range`'s interaction with the repository: the
external probe invokes `found_device` once per discovery, in discovery
order. -/
def runProbe (reg : Registry) (found : List (String × String)) :
    Registry × List Action :=
  match found with
  | [] => (reg, [])
  | (a, m) :: rest =>
    let f1 := found_device reg a m
    let k := runProbe f1.2.1 rest
    (k.1, f1.2.2 ++ k.2)

/-- `probe_devices`: re-initialize the bus, default the mask to
all-wildcards, validate it, run the secondary probe (driving
`found_device`), and on success print every registry entry as
`primary  secondary`. -/
def probe_devices (reg : Registry) (args : Option String) (e : Env) :
    Int × Registry × Env × List Action :=
  let ini := init_slaves e
  if ini.1 ≠ 0 then (1, reg, ini.2.1, ini.2.2)
  else
    let mask := args.getD "FFFFFFFFFFFFFFFF"
    if !(mbus_is_secondary_address mask) then (1, reg, ini.2.1, ini.2.2)
    else
      let pr := runProbe reg ini.2.1.probeFound
      if ini.2.1.probeOk = false then (1, pr.1, ini.2.1, ini.2.2 ++ pr.2)
      else
        let t3 := (pr.1.slots.take pr.1.num).map
          (fun r => Action.printEntry r.primary r.secondary)
        (0, pr.1, ini.2.1, ini.2.2 ++ pr.2 ++ t3)

/-! ## Concrete transport scripts and registries used by the claim theorems -/

/-- Script for a `request 0` invocation: bus initialization succeeds,
`mbus_send_request_frame` succeeds, the receive times out. -/
def c1Env : Env :=
  { maxSearchRetry := 0, pings := [true, true],
    recvs := [(RecvRes.timeout, defaultFrame)], selects := [],
    requests := [true], sets := [], purges := [],
    probeFound := [], probeOk := true }

def c7Addr : String := "0123456789ABCDEF"

/-- A full registry (50 occupied slots), for the inverted branch. -/
def c7FullReg : Registry :=
  { num := 50,
    slots := List.replicate 50 { primary := 0, secondary := some "00000000000000AA" } }

/-- A full registry that contains the address being re-added. -/
def c9FullReg : Registry :=
  { num := 50,
    slots := List.replicate 50 { primary := 0, secondary := some "00000000000000AB" } }

def c9WitReg : Registry :=
  { num := 1, slots := [{ primary := 0, secondary := some "00000000000000AB" }] }

/-- Variable-format reply carrying exactly one record, whose decode
succeeds. -/
def c6Rec : MRecord := { isNumeric := true, numVal := 42, strVal := "", unit := "kWh" }

def c6Reply : Frame :=
  { frameType := 4,
    parsed := some { dtype := MDataType.variable,
                     records := [{ dif := 0, vif := 0, parsed := some c6Rec }],
                     xmlOk := true } }

/-- Script for `request 5 1`: bus initialization succeeds, the request
is sent, and the reply `c6Reply` (one record) comes back OK. -/
def c6Env : Env :=
  { maxSearchRetry := 0, pings := [true, true],
    recvs := [(RecvRes.ok, c6Reply)], selects := [],
    requests := [true], sets := [], purges := [],
    probeFound := [], probeOk := true }

/-- C6 amended, witness: a two-record reply, index 0 (numeric record,
decode succeeds): the query succeeds, prints the value, and frees the
list. -/
def c6WitData : FrameData :=
  { dtype := MDataType.variable,
    records := [{ dif := 0, vif := 0, parsed := some c6Rec },
                { dif := 1, vif := 1, parsed := none }],
    xmlOk := true }

def c5AckFrame : Frame := { frameType := 1, parsed := none }

/-- Script: the ping is sent, an ACK comes back, and the extra purge
reports leftover data. -/
def c5Env : Env :=
  { maxSearchRetry := 0, pings := [true],
    recvs := [(RecvRes.ok, c5AckFrame)], selects := [],
    requests := [], sets := [], purges := [true],
    probeFound := [], probeOk := true }

def c3Frame : Frame := { frameType := 1, parsed := none }

def c3Env : Env :=
  { maxSearchRetry := 0, pings := [true, true, true],
    recvs := [(RecvRes.ok, c3Frame)], selects := [],
    requests := [], sets := [true], purges := [],
    probeFound := [], probeOk := true }

def c2AckFrame : Frame := { frameType := 1, parsed := none }

def c2EnvA : Env :=
  { maxSearchRetry := 0, pings := [true, true, true],
    recvs := [(RecvRes.timeout, defaultFrame), (RecvRes.timeout, defaultFrame),
              (RecvRes.timeout, defaultFrame), (RecvRes.ok, c2AckFrame)],
    selects := [], requests := [], sets := [true, true, true], purges := [],
    probeFound := [], probeOk := true }

def c2EnvB : Env :=
  { maxSearchRetry := 0, pings := [true, true, true],
    recvs := [(RecvRes.timeout, defaultFrame), (RecvRes.timeout, defaultFrame),
              (RecvRes.timeout, defaultFrame), (RecvRes.timeout, defaultFrame)],
    selects := [], requests := [], sets := [true, true, true], purges := [],
    probeFound := [], probeOk := true }

def c4AckFrame : Frame := { frameType := 1, parsed := none }

/-- Script with a TIMEOUT at the verification-ping receive, then one
set command answered by an ACK. -/
def c4Env : Env :=
  { maxSearchRetry := 0, pings := [true, true, true],
    recvs := [(RecvRes.timeout, defaultFrame), (RecvRes.ok, c4AckFrame)],
    selects := [], requests := [], sets := [true], purges := [],
    probeFound := [], probeOk := true }

/-- A fully successful run used by the C4 witness (verification TIMEOUT,
first set attempt answered with ACK). -/
def c4OkEnv : Env :=
  { maxSearchRetry := 0, pings := [true, true, true],
    recvs := [(RecvRes.timeout, defaultFrame), (RecvRes.ok, c4AckFrame)],
    selects := [], requests := [], sets := [true], purges := [],
    probeFound := [], probeOk := true }

def c4BadFrame : Frame := { frameType := 2, parsed := none }

/-- Script with a (malformed, non-ACK) reply at the verification ping. -/
def c4BadEnv : Env :=
  { maxSearchRetry := 0, pings := [true, true, true],
    recvs := [(RecvRes.invalid, c4BadFrame)],
    selects := [], requests := [], sets := [true], purges := [],
    probeFound := [], probeOk := true }

def c8Reg : Registry :=
  { num := 1, slots := [{ primary := 0, secondary := some "1234567890ABCDEF" }] }

def c8AckFrame : Frame := { frameType := 1, parsed := none }

def c8Env : Env :=
  { maxSearchRetry := 0, pings := [true, true, true],
    recvs := [(RecvRes.timeout, defaultFrame), (RecvRes.ok, c8AckFrame)],
    selects := [ProbeRes.single], requests := [], sets := [true], purges := [],
    probeFound := [], probeOk := true }

def c10WitReg : Registry :=
  { num := 1, slots := [{ primary := 7, secondary := some "AA" }] }

/-- Environment for the C10 witness: one successful probe discovery,
then the registry printout. -/
def c10Env : Env :=
  { maxSearchRetry := 0, pings := [true, true],
    recvs := [], selects := [], requests := [], sets := [], purges := [],
    probeFound := [("0123456789ABCDEF", "FFFFFFFFFFFFFFFF")], probeOk := true }

def c10FailEnv : Env :=
  { maxSearchRetry := 0, pings := [], recvs := [], selects := [],
    requests := [], sets := [], purges := [], probeFound := [], probeOk := true }

/-! ## Claim C1: address-resolution failure and `query_device` -/

/-- C1: the claim fails on the code.  For the address token "0"
(primary address out of the 1..255 range) `parse_addr` reports the
validation failure by returning the error constant 1, but `query_device`
never checks it: it uses 1 as the address and sends a data request
frame to primary address 1 on the bus. -/
theorem c1_invalid_address_still_sends_request :
    (parse_addr (some "0") c1Env).1 = 1 ∧
    (atoi "0" < 1 ∨ atoi "0" > 255) ∧
    Action.request 1 ∈ (query_device false false (some "0") c1Env).2.2 := by
  refine ⟨?_, ?_, ?_⟩ <;>
    simp +decide [parse_addr, query_device, init_slaves, secondary_select,
      takePing, takeRecv, takeRequest, takeSelect, strsepOpt, strsep, strsepGo,
      isDelim, atoi, digitsVal, isSpaceC, mbus_is_secondary_address, isXDigit,
      c1Env, defaultFrame, MBUS_ADDRESS_NETWORK_LAYER,
      MBUS_ADDRESS_BROADCAST_NOREPLY]

/-! ## Claim C7: `found_device` reporting -/

/-- C7: the claim fails on the code.  A newly discovered secondary
address is inserted into a non-full registry, but no "Found" line is
logged (the trace is empty); conversely, when the registry is full the
"Found" line *is* logged even though nothing was inserted.  The `if
(reg_add(addr))` test in `found_device` fires exactly when `reg_add`
fails. -/
theorem c7_found_device_logs_only_when_full :
    (found_device initRegistry c7Addr "FFFFFFFFFFFFFFFF").2.2 = [] ∧
    (found_device initRegistry c7Addr "FFFFFFFFFFFFFFFF").2.1.num = 1 ∧
    (found_device c7FullReg c7Addr "FFFFFFFFFFFFFFFF").2.2
      = [Action.logFound c7Addr "FFFFFFFFFFFFFFFF"] ∧
    (found_device c7FullReg c7Addr "FFFFFFFFFFFFFFFF").2.1 = c7FullReg := by
  refine ⟨?_, ?_, ?_, ?_⟩ <;>
    · set_option maxHeartbeats 4000000 in decide

/-! ## Claim C9: idempotence of `reg_add` -/

/-- C9 counterexample: with a full registry that already contains the
secondary address, `reg_add` returns -1 (failure), not the success the
claim asserts for every registry state containing the address. -/
theorem c9_full_registry_counterexample :
    reg_find_secondary c9FullReg "00000000000000AB" ≥ 0 ∧
    (reg_add c9FullReg "00000000000000AB").1 = -1 := by
  constructor <;>
    · set_option maxHeartbeats 4000000 in decide

/-- C9 amended: for a registry below capacity, `reg_add` on an
already-present secondary address returns success and leaves the
registry (contents and count) unchanged; at capacity it also leaves the
registry unchanged but returns -1, because the capacity check precedes
the duplicate check. -/
theorem c9_reg_add_idempotent (r : Registry) (s : String)
    (hpresent : reg_find_secondary r s ≥ 0) :
    (r.num < REG_NUM_MAX → reg_add r s = (0, r)) ∧
    (r.num ≥ REG_NUM_MAX → reg_add r s = (-1, r)) := by
  unfold reg_add
  refine ⟨fun h => ?_, fun h => ?_⟩
  · rw [if_neg (by omega), if_pos hpresent]
  · rw [if_pos h]

theorem c9_reg_add_idempotent_witness :
    reg_add c9WitReg "00000000000000AB" = (0, c9WitReg) :=
  (c9_reg_add_idempotent c9WitReg "00000000000000AB" (by decide)).1 (by decide)

/-! ## Claim C6: record selection in `query_device` -/

/-- The walking loop exhausts the list when the requested index lies at
or beyond its end. -/
lemma walk_exhaust (recs : List DataRecord) :
    ∀ j rid : Int, j + recs.length ≤ rid →
      walk recs j rid = (j + recs.length, none) := by
  induction recs with
  | nil => intro j rid _; simp [walk]
  | cons r rest ih =>
    intro j rid h
    have hj : j < rid := by
      have := h
      simp only [List.length_cons] at this
      omega
    have h' : (j + 1) + rest.length ≤ rid := by
      simp only [List.length_cons] at h
      omega
    simp only [walk, if_pos hj, ih (j + 1) rid h', List.length_cons]
    refine congrArg (fun z => (z, (none : Option DataRecord))) ?_
    push_cast
    ring

/-- The walking loop stops exactly on the requested index when it is
inside the list. -/
lemma walk_hit (recs : List DataRecord) :
    ∀ j rid : Int, j ≤ rid → rid - j < recs.length →
      walk recs j rid
        = (rid, some (recs.getD (rid - j).toNat
            { dif := 0, vif := 0, parsed := none })) := by
  induction recs with
  | nil => intro j rid _ h2; simp at h2; omega
  | cons r rest ih =>
    intro j rid h1 h2
    by_cases hj : j < rid
    · have h1' : j + 1 ≤ rid := by omega
      have h2' : rid - (j + 1) < rest.length := by
        simp only [List.length_cons] at h2
        omega
      have hpos : (rid - j).toNat = (rid - (j + 1)).toNat + 1 := by omega
      simp only [walk, if_pos hj, ih (j + 1) rid h1' h2', hpos, List.getD_cons_succ]
    · have hje : j = rid := by omega
      subst hje
      simp [walk]

/-- C6 counterexample: requesting record index 1 on a variable-format
reply with exactly 1 record (so N ≤ i) *succeeds* (returns 0) instead of
failing with an out-of-range error: the walking loop stops with
`entry == NULL` but `i == record_id`, and `mbus_parse_variable_record(NULL)`
returns NULL, so nothing is printed and the function returns 0. -/
theorem c6_index_equal_count_succeeds :
    (query_device false false (some "5 1") c6Env).1 = 0 ∧
    Action.freeRecords ∈ (query_device false false (some "5 1") c6Env).2.2 := by
  constructor <;>
    simp +decide [query_device, query_records, walk, parse_addr, init_slaves,
      takePing, takeRecv, takeRequest, strsepOpt, strsep, strsepGo, isDelim,
      atoi, digitsVal, isSpaceC, mbus_is_secondary_address, isXDigit,
      c6Env, c6Reply, c6Rec, defaultFrame, MBUS_ADDRESS_NETWORK_LAYER,
      MBUS_ADDRESS_BROADCAST_NOREPLY]

/-- C6 amended: on a variable-format reply with `N` records and a
requested index `i ≥ 0`: if `N < i` the query fails (returns 1) and the
non-empty record list is released before returning; if `i < N` the query
succeeds, the `i`-th record's decoded value is printed (numeric or
textual, plus its unit exactly when verbose) provided its record-level
decode succeeds, and the record list is released; in the boundary case
`i = N` the code returns success with nothing printed (the record list,
when non-empty, is still released).  Stated on `query_records`, the
record-selection tail of `query_device` reached for every variable-format
reply with a record argument. -/
theorem c6_record_selection (verbose : Bool) (data : FrameData) (i : Int)
    (hi : 0 ≤ i) :
    ((data.records.length : Int) < i →
      query_records verbose data i
        = (1, (if data.records ≠ [] then [Action.freeRecords] else [])
              ++ [Action.frameFree])) ∧
    (i < (data.records.length : Int) →
      (query_records verbose data i).1 = 0 ∧
      Action.freeRecords ∈ (query_records verbose data i).2 ∧
      ∀ r, (data.records.getD i.toNat { dif := 0, vif := 0, parsed := none }).parsed
            = some r →
        ((r.isNumeric → Action.printNum r.numVal ∈ (query_records verbose data i).2) ∧
         (r.isNumeric = false → Action.printStr r.strVal ∈ (query_records verbose data i).2) ∧
         (verbose → Action.printUnit r.unit ∈ (query_records verbose data i).2))) ∧
    ((data.records.length : Int) = i →
      (query_records verbose data i).1 = 0 ∧
      ∀ v s u, Action.printNum v ∉ (query_records verbose data i).2 ∧
               Action.printStr s ∉ (query_records verbose data i).2 ∧
               Action.printUnit u ∉ (query_records verbose data i).2) := by
  refine ⟨fun hgt => ?_, fun hlt => ?_, fun heq => ?_⟩
  · have hw := walk_exhaust data.records 0 i (by omega)
    simp only [zero_add] at hw
    have hne : (data.records.length : Int) ≠ i := by omega
    simp only [query_records, hw, if_pos hne]
  · have hw := walk_hit data.records 0 i hi (by omega)
    simp only [sub_zero] at hw
    have hne : data.records ≠ [] := by
      have hpos : 0 < data.records.length := by omega
      exact List.length_pos.mp hpos
    refine ⟨?_, ?_, ?_⟩
    · simp only [query_records, hw]
      simp
    · simp only [query_records, hw, if_neg (by simp : ¬ (i ≠ i)), if_pos hne]
      cases hpp : (data.records.getD i.toNat
          { dif := 0, vif := 0, parsed := none }).parsed <;> simp [hpp]
    · intro r hr
      simp only [query_records, hw, if_neg (by simp : ¬ (i ≠ i)), Option.some_bind,
        hr, if_pos hne]
      refine ⟨fun hn => ?_, fun hn => ?_, fun hv => ?_⟩
      · simp [hn]
      · simp [hn]
      · by_cases hb : r.isNumeric <;> simp [hb, hv]
  · have hw := walk_exhaust data.records 0 i (by omega)
    simp only [zero_add, heq] at hw
    refine ⟨?_, fun v s u => ?_⟩
    · simp only [query_records, hw, if_neg (by simp : ¬ (i ≠ i))]
    · simp only [query_records, hw, if_neg (by simp : ¬ (i ≠ i)), Option.none_bind]
      refine ⟨?_, ?_, ?_⟩ <;> split <;> simp

theorem c6_record_selection_witness :
    (query_records true c6WitData 0).1 = 0 ∧
    Action.printNum 42 ∈ (query_records true c6WitData 0).2 ∧
    Action.printUnit "kWh" ∈ (query_records true c6WitData 0).2 := by
  have h := (c6_record_selection true c6WitData 0 (by decide)).2.1 (by decide)
  exact ⟨h.1, (h.2.2 c6Rec (by decide)).1 (by decide), (h.2.2 c6Rec (by decide)).2.2 (by decide)⟩

/-! ## Claim C5: purge-after-ACK collision detection during the scan -/

/-- `ping_address` only ever pings and receives: its trace never
contains a found-device or collision report. -/
lemma ping_address_go_actions (address : Int) :
    ∀ fuel e x, x ∈ (ping_address_go address fuel e).2.2 →
      (∃ b p, x = Action.ping b p) ∨ (∃ r f, x = Action.recv r f) := by
  intro fuel
  induction fuel using Nat.strong_induction_on with
  | _ fuel ih =>
    intro e x hx
    rw [ping_address_go.eq_def] at hx
    by_cases h1 : (takePing e).1 = false
    · simp [h1] at hx
      exact Or.inl ⟨address, false, hx⟩
    · by_cases h2 : (takeRecv (takePing e).2).1.1 = RecvRes.timeout
      · by_cases h3 : fuel = 0
        · simp [h1, h2, h3] at hx
          rcases hx with hx | hx
          · exact Or.inl ⟨address, false, hx⟩
          · exact Or.inr ⟨_, _, hx⟩
        · simp [h1, h2, h3] at hx
          rcases hx with hx | hx | hx
          · exact Or.inl ⟨address, false, hx⟩
          · exact Or.inr ⟨_, _, hx⟩
          · exact ih (fuel - 1) (by omega) _ x hx
      · simp [h1, h2] at hx
        rcases hx with hx | hx
        · exact Or.inl ⟨address, false, hx⟩
        · exact Or.inr ⟨_, _, hx⟩

/-- C5: during a primary address scan, when the ping of address `a` is
answered with an ACK-type frame, the scan-loop body purges the transport
once more; when the purge reports leftover data the address is reported
as a collision and not as a found device, and when it reports none the
address is reported as found.  (`scan_address` is the loop body of
`mbus_scan_1st_address_range`, executed once per address.) -/
theorem c5_ack_purge_collision (a : Int) (e e1 : Env) (f : Frame)
    (t1 : List Action)
    (heq : ping_address a e = ((RecvRes.ok, f), e1, t1))
    (hack : mbus_frame_type f = MBUS_FRAME_TYPE_ACK) :
    Action.purge ∈ (scan_address a e).2.2 ∧
    ((takePurge e1).1 = true →
      Action.warnCollision a ∈ (scan_address a e).2.2 ∧
      Action.foundPrimary a ∉ (scan_address a e).2.2) ∧
    ((takePurge e1).1 = false →
      Action.foundPrimary a ∈ (scan_address a e).2.2) := by
  have hnofound : Action.foundPrimary a ∉ t1 := by
    intro hmem
    have ht1 : t1 = (ping_address_go a e.maxSearchRetry e).2.2 := by
      rw [show ping_address_go a e.maxSearchRetry e = ping_address a e from rfl, heq]
    rw [ht1] at hmem
    rcases ping_address_go_actions a e.maxSearchRetry e _ hmem with ⟨b, p, hx⟩ | ⟨r, g, hx⟩ <;>
      exact absurd hx (by simp)
  simp only [mbus_frame_type, MBUS_FRAME_TYPE_ACK] at hack
  unfold scan_address
  rw [heq]
  by_cases hp : (takePurge e1).1 = true
  · simp +decide [hp, mbus_frame_type, MBUS_FRAME_TYPE_ACK, hack, hnofound]
  · simp only [Bool.not_eq_true] at hp
    simp +decide [hp, mbus_frame_type, MBUS_FRAME_TYPE_ACK, hack]

theorem c5_ack_purge_collision_witness :
    Action.purge ∈ (scan_address 7 c5Env).2.2 ∧
    Action.warnCollision 7 ∈ (scan_address 7 c5Env).2.2 ∧
    Action.foundPrimary 7 ∉ (scan_address 7 c5Env).2.2 := by
  have heq : ping_address 7 c5Env
      = ((RecvRes.ok, c5AckFrame),
         { maxSearchRetry := 0, pings := [], recvs := [], selects := [],
           requests := [], sets := [], purges := [true],
           probeFound := [], probeOk := true },
         [Action.ping 7 false, Action.recv RecvRes.ok c5AckFrame]) := by
    simp [ping_address, ping_address_go, takePing, takeRecv, c5Env, c5AckFrame]
  have h := c5_ack_purge_collision 7 c5Env _ c5AckFrame _ heq (by decide)
  exact ⟨h.1, (h.2.1 (by decide)).1, (h.2.1 (by decide)).2⟩

/-! ## Claim C3: the verification ping guards every mutation -/

/-- C3: on any `set` invocation whose arguments parse (a well-formed
`<MASK|ADDR> NEW` pair with `NEW` in 1..250), when the receive following
the verification ping of the new address yields any outcome other than
TIMEOUT, `set_address` aborts with the address-already-in-use warning
and the trace contains no set-primary-address command at all. -/
theorem c3_verify_ping_guards_mutation
    (reg : Registry) (s mask restS : String) (e : Env)
    (msr : Nat) (ps : List Bool) (rc : RecvRes) (f : Frame)
    (rs : List (RecvRes × Frame)) (sl : List ProbeRes) (rq st pg : List Bool)
    (pf : List (String × String)) (pok : Bool)
    (he : e = { maxSearchRetry := msr, pings := true :: true :: true :: ps,
                recvs := (rc, f) :: rs, selects := sl, requests := rq,
                sets := st, purges := pg, probeFound := pf, probeOk := pok })
    (hsep : strsep s = (mask, some restS)) (hrest : restS ≠ "")
    (hcurr : mbus_is_secondary_address mask = false →
      0 ≤ atoi mask ∧ atoi mask ≤ 250)
    (hnext : 1 ≤ atoi restS ∧ atoi restS ≤ 250)
    (hrc : rc ≠ RecvRes.timeout) :
    (set_address reg (some s) e).1 = 1 ∧
    Action.warnInUse (atoi restS) ∈ (set_address reg (some s) e).2.2.2 ∧
    ∀ c n, Action.setPrimary c n ∉ (set_address reg (some s) e).2.2.2 := by
  subst he
  have hn : ¬(atoi restS < 1 ∨ atoi restS > 250) := by omega
  by_cases hsec : mbus_is_secondary_address mask
  · refine ⟨?_, ?_, fun c n => ?_⟩ <;>
      simp +decide [set_address, set_address_checked, hsep, hrest, hsec, hn,
        init_slaves, takePing, takeRecv, hrc, MBUS_ADDRESS_NETWORK_LAYER,
        MBUS_ADDRESS_BROADCAST_NOREPLY]
  · have hsec' : mbus_is_secondary_address mask = false := by
      simpa using hsec
    have hmn : ¬(atoi mask < 0 ∨ atoi mask > 250) := by
      have := hcurr hsec'
      omega
    refine ⟨?_, ?_, fun c n => ?_⟩ <;>
      simp +decide [set_address, set_address_checked, hsep, hrest, hsec', hn, hmn,
        init_slaves, takePing, takeRecv, hrc, MBUS_ADDRESS_NETWORK_LAYER,
        MBUS_ADDRESS_BROADCAST_NOREPLY]

theorem c3_verify_ping_guards_mutation_witness :
    (set_address initRegistry (some "5 10") c3Env).1 = 1 ∧
    Action.warnInUse 10 ∈ (set_address initRegistry (some "5 10") c3Env).2.2.2 ∧
    ∀ c n, Action.setPrimary c n ∉ (set_address initRegistry (some "5 10") c3Env).2.2.2 := by
  have h := c3_verify_ping_guards_mutation initRegistry "5 10" "5" "10" c3Env
    0 [] RecvRes.ok c3Frame [] [] [] [true] [] [] true rfl (by decide) (by decide)
    (fun _ => by decide) (by decide) (by decide)
  exact ⟨h.1, by simpa using h.2.1, h.2.2⟩

/-! ## Claim C2: the set-command retry loop -/

/-- C2: with a primary-addressed target whose arguments parse, after
the verification ping times out (address free), the set-primary-address
command is attempted up to 3 times, re-sent on each timeout.  Scenario
A: the receive times out on the first two attempts and the third yields
an ACK reply — the whole operation succeeds (returns 0) and the trace
shows exactly three set commands, each followed by its receive.
Scenario B: all three attempts time out — the operation fails (returns
1) with the no-reply warning, again after exactly three set commands. -/
theorem c2_set_address_retry
    (reg : Registry) (s mask restS : String) (eA eB : Env)
    (msr : Nat) (ps ps' : List Bool) (f0 f1 f2 f3 g0 g1 g2 g3 : Frame)
    (rs rs' : List (RecvRes × Frame)) (sl sl' : List ProbeRes)
    (rq rq' st st' pg pg' : List Bool)
    (pf pf' : List (String × String)) (pok pok' : Bool)
    (heA : eA = { maxSearchRetry := msr, pings := true :: true :: true :: ps,
                  recvs := (RecvRes.timeout, f0) :: (RecvRes.timeout, f1)
                    :: (RecvRes.timeout, f2) :: (RecvRes.ok, f3) :: rs,
                  selects := sl, requests := rq, sets := true :: true :: true :: st,
                  purges := pg, probeFound := pf, probeOk := pok })
    (heB : eB = { maxSearchRetry := msr, pings := true :: true :: true :: ps',
                  recvs := (RecvRes.timeout, g0) :: (RecvRes.timeout, g1)
                    :: (RecvRes.timeout, g2) :: (RecvRes.timeout, g3) :: rs',
                  selects := sl', requests := rq', sets := true :: true :: true :: st',
                  purges := pg', probeFound := pf', probeOk := pok' })
    (hsep : strsep s = (mask, some restS)) (hrest : restS ≠ "")
    (hsec : mbus_is_secondary_address mask = false)
    (hcurr : 0 ≤ atoi mask ∧ atoi mask ≤ 250)
    (hnext : 1 ≤ atoi restS ∧ atoi restS ≤ 250)
    (hack : f3.frameType = MBUS_FRAME_TYPE_ACK) :
    ((set_address reg (some s) eA).1 = 0 ∧
     (set_address reg (some s) eA).2.2.2
       = [Action.ping MBUS_ADDRESS_NETWORK_LAYER true,
          Action.ping MBUS_ADDRESS_BROADCAST_NOREPLY true,
          Action.ping (atoi restS) false, Action.recv RecvRes.timeout f0,
          Action.setPrimary (atoi mask) (atoi restS), Action.recv RecvRes.timeout f1,
          Action.setPrimary (atoi mask) (atoi restS), Action.recv RecvRes.timeout f2,
          Action.setPrimary (atoi mask) (atoi restS), Action.recv RecvRes.ok f3]) ∧
    ((set_address reg (some s) eB).1 = 1 ∧
     (set_address reg (some s) eB).2.2.2
       = [Action.ping MBUS_ADDRESS_NETWORK_LAYER true,
          Action.ping MBUS_ADDRESS_BROADCAST_NOREPLY true,
          Action.ping (atoi restS) false, Action.recv RecvRes.timeout g0,
          Action.setPrimary (atoi mask) (atoi restS), Action.recv RecvRes.timeout g1,
          Action.setPrimary (atoi mask) (atoi restS), Action.recv RecvRes.timeout g2,
          Action.setPrimary (atoi mask) (atoi restS), Action.recv RecvRes.timeout g3,
          Action.warnNoReply]) := by
  subst heA
  subst heB
  have hn : ¬(atoi restS < 1 ∨ atoi restS > 250) := by omega
  have hmn : ¬(atoi mask < 0 ∨ atoi mask > 250) := by omega
  have h253 : ¬(atoi mask = 253) := by omega
  simp only [mbus_frame_type, MBUS_FRAME_TYPE_ACK] at hack
  refine ⟨⟨?_, ?_⟩, ?_, ?_⟩ <;>
    simp +decide [set_address, set_address_checked, set_address_final, setRetryLoop,
      hsep, hrest, hsec, hn, hmn, h253, hack, init_slaves, takePing, takeRecv, takeSet,
      mbus_frame_type, MBUS_FRAME_TYPE_ACK, MBUS_ADDRESS_NETWORK_LAYER,
      MBUS_ADDRESS_BROADCAST_NOREPLY]

theorem c2_set_address_retry_witness :
    (set_address initRegistry (some "5 10") c2EnvA).1 = 0 ∧
    (set_address initRegistry (some "5 10") c2EnvB).1 = 1 ∧
    Action.warnNoReply ∈ (set_address initRegistry (some "5 10") c2EnvB).2.2.2 := by
  have h := c2_set_address_retry initRegistry "5 10" "5" "10" c2EnvA c2EnvB
    0 [] [] defaultFrame defaultFrame defaultFrame c2AckFrame
    defaultFrame defaultFrame defaultFrame defaultFrame
    [] [] [] [] [] [] [] [] [] [] [] [] true true
    rfl rfl (by decide) (by decide) (by decide) (by decide) (by decide) (by decide)
  exact ⟨h.1.1, h.2.1, by rw [h.2.2]; simp⟩

/-! ## Case-analysis lemmas for `set_address` -/

/-- When the retry loop breaks out with a reply frame, that frame was
received inside the loop: its receive action is in the loop's trace. -/
lemma setRetryLoop_some_recv :
    ∀ (retries : Nat) (e : Env) (curr next : Int) (f : Frame),
      (setRetryLoop curr next retries e).1 = some f →
        ∃ rc, Action.recv rc f ∈ (setRetryLoop curr next retries e).2.2 := by
  intro retries
  induction retries using Nat.strong_induction_on with
  | _ retries ih =>
    intro e curr next f h
    rw [setRetryLoop.eq_def] at h ⊢
    by_cases h1 : (takeSet e).1 = false
    · simp [h1] at h
    · by_cases h2 : (takeRecv (takeSet e).2).1.1 = RecvRes.timeout
      · by_cases h3 : retries > 1
        · simp only [if_neg h1, if_pos h2, dif_pos h3] at h ⊢
          obtain ⟨rc, hrc⟩ := ih (retries - 1) (by omega) _ curr next f h
          exact ⟨rc, by simp [hrc]⟩
        · simp [h1, h2, h3] at h
      · simp only [if_neg h1, if_neg h2] at h ⊢
        simp at h
        exact ⟨(takeRecv (takeSet e).2).1.1, by simp [h]⟩

/-- A successful final phase observed an ACK-typed reply frame via a
receive in its trace. -/
lemma set_address_final_ack (reg : Registry) (id curr next : Int) (e : Env)
    (h : (set_address_final reg id curr next e).1 = 0) :
    ∃ rc f, Action.recv rc f ∈ (set_address_final reg id curr next e).2.2.2 ∧
      mbus_frame_type f = MBUS_FRAME_TYPE_ACK := by
  simp only [set_address_final] at h ⊢
  rcases hlp : (setRetryLoop curr next 3 e).1 with _ | f
  · simp only [hlp] at h
    simp at h
  · simp only [hlp] at h ⊢
    by_cases hty : mbus_frame_type f ≠ MBUS_FRAME_TYPE_ACK
    · simp [hty] at h
    · push_neg at hty
      obtain ⟨rc, hrc⟩ := setRetryLoop_some_recv 3 e curr next f hlp
      refine ⟨rc, f, ?_, hty⟩
      simp only [hty, ne_eq, not_true_eq_false, if_false, ite_not]
      split <;> simpa using hrc

/-- A failed final phase leaves the registry untouched. -/
lemma set_address_final_fail (reg : Registry) (id curr next : Int) (e : Env)
    (h : (set_address_final reg id curr next e).1 ≠ 0) :
    (set_address_final reg id curr next e).2.1 = reg := by
  simp only [set_address_final] at h ⊢
  rcases hlp : (setRetryLoop curr next 3 e).1 with _ | f
  · simp only [hlp]
  · simp only [hlp] at h ⊢
    by_cases hty : mbus_frame_type f ≠ MBUS_FRAME_TYPE_ACK
    · simp [hty]
    · by_cases hid : id > -1 ∧ id < (REG_NUM_MAX : Int)
      · simp [hty, hid] at h
      · simp [hty, hid] at h

/-- A successful final phase with an in-range registry id rewrites
exactly that entry's primary field. -/
lemma set_address_final_success (reg : Registry) (id curr next : Int) (e : Env)
    (h : (set_address_final reg id curr next e).1 = 0)
    (hid : id > -1 ∧ id < (REG_NUM_MAX : Int)) :
    (set_address_final reg id curr next e).2.1
      = { reg with slots := reg.slots.set id.toNat { reg.slots.getD id.toNat defaultReg with primary := next } } := by
  simp only [set_address_final] at h ⊢
  rcases hlp : (setRetryLoop curr next 3 e).1 with _ | f
  · simp only [hlp] at h
    simp at h
  · simp only [hlp] at h ⊢
    by_cases hty : mbus_frame_type f ≠ MBUS_FRAME_TYPE_ACK
    · simp [hty] at h
    · simp [hty, hid]

/-- The middle phase either fails outright with the registry untouched,
or behaves exactly like a final-phase run (same status, same registry,
trace included). -/
lemma set_address_checked_cases (reg : Registry) (mask : String)
    (id curr next : Int) (e : Env) :
    ((set_address_checked reg mask id curr next e).1 = 1 ∧
     (set_address_checked reg mask id curr next e).2.1 = reg) ∨
    (∃ e', (set_address_checked reg mask id curr next e).1
            = (set_address_final reg id curr next e').1 ∧
       (set_address_checked reg mask id curr next e).2.1
            = (set_address_final reg id curr next e').2.1 ∧
       ∀ x ∈ (set_address_final reg id curr next e').2.2.2,
         x ∈ (set_address_checked reg mask id curr next e).2.2.2) := by
  unfold set_address_checked
  by_cases hc1 : next < 1 ∨ next > 250
  · simp [hc1]
  · simp only [if_neg hc1]
    by_cases hc2 : (init_slaves e).1 ≠ 0
    · simp [hc2]
    · simp only [hc2, if_false, if_neg hc2]
      by_cases hc3 : (takePing (init_slaves e).2.1).1 = false
      · simp [hc3]
      · simp only [if_neg hc3]
        by_cases hc4 : (takeRecv (takePing (init_slaves e).2.1).2).1.1 ≠ RecvRes.timeout
        · simp [hc4]
        · simp only [hc4, if_false, if_neg hc4]
          by_cases hc5 : curr = MBUS_ADDRESS_NETWORK_LAYER
          · simp only [if_pos hc5]
            by_cases hc6 : (secondary_select mask
                (takeRecv (takePing (init_slaves e).2.1).2).2).1 = -1
            · simp [hc6]
            · simp only [if_neg hc6]
              refine Or.inr ⟨_, rfl, rfl, fun x hx => ?_⟩
              simp [hx]
          · simp only [if_neg hc5]
            refine Or.inr ⟨_, rfl, rfl, fun x hx => ?_⟩
            simp [hx]

/-- `set_address` either fails at argument validation with the registry
untouched, or behaves exactly like a middle-phase run. -/
lemma set_address_cases (reg : Registry) (args : Option String) (e : Env) :
    ((set_address reg args e).1 = 1 ∧ (set_address reg args e).2.1 = reg) ∨
    (∃ mask id curr next e',
       (set_address reg args e).1
          = (set_address_checked reg mask id curr next e').1 ∧
       (set_address reg args e).2.1
          = (set_address_checked reg mask id curr next e').2.1 ∧
       (set_address reg args e).2.2.2
          = (set_address_checked reg mask id curr next e').2.2.2) := by
  unfold set_address
  rcases args with _ | s
  · simp
  · rcases hsp : (strsep s).2 with _ | rest
    · simp [hsp]
    · simp only [hsp]
      by_cases hr : rest = ""
      · simp [hr]
      · simp only [if_neg hr]
        by_cases hsec : mbus_is_secondary_address (strsep s).1
        · simp only [hsec, Bool.not_true, Bool.false_eq_true, if_false]
          exact Or.inr ⟨_, _, _, _, _, rfl, rfl, rfl⟩
        · have hsec' : mbus_is_secondary_address (strsep s).1 = false := by
            simpa using hsec
          simp only [hsec', Bool.not_false, if_true]
          by_cases hcr : atoi (strsep s).1 < 0 ∨ atoi (strsep s).1 > 250
          · simp [hcr]
          · simp only [if_neg hcr]
            exact Or.inr ⟨_, _, _, _, _, rfl, rfl, rfl⟩

/-! ## Claim C4: success requires an observed ACK; the verification ping -/

/-- C4 counterexample: a timeout injected at the verification-ping step
does *not* abort the operation — it is the pass condition.  The run
continues, sends the set-primary-address command, and succeeds. -/
theorem c4_timeout_verification_proceeds :
    (set_address initRegistry (some "5 10") c4Env).2.2.2
      = [Action.ping MBUS_ADDRESS_NETWORK_LAYER true,
         Action.ping MBUS_ADDRESS_BROADCAST_NOREPLY true,
         Action.ping 10 false, Action.recv RecvRes.timeout defaultFrame,
         Action.setPrimary 5 10, Action.recv RecvRes.ok c4AckFrame] ∧
    (set_address initRegistry (some "5 10") c4Env).1 = 0 := by
  constructor <;>
    simp +decide [set_address, set_address_checked, set_address_final, setRetryLoop,
      init_slaves, takePing, takeRecv, takeSet, strsep, strsepGo, isDelim,
      atoi, digitsVal, isSpaceC, mbus_is_secondary_address, isXDigit,
      reg_find_secondary, findSecGo, initRegistry, defaultReg, c4Env, c4AckFrame,
      defaultFrame, mbus_frame_type, MBUS_FRAME_TYPE_ACK,
      MBUS_ADDRESS_NETWORK_LAYER, MBUS_ADDRESS_BROADCAST_NOREPLY, REG_NUM_MAX]

/-- C4 amended: (a) `set_address` never reports success unless an
ACK-typed reply frame was actually received: every run returning 0 has a
receive of an ACK-typed frame in its trace; (b) any *reply* (a receive
outcome other than TIMEOUT) injected at the verification-ping step
aborts the operation before any set-address command is sent — a TIMEOUT
there is the pass condition that lets the reassignment proceed. -/
theorem c4_success_requires_ack
    (reg : Registry) (s mask restS : String) (e : Env)
    (msr : Nat) (ps : List Bool) (rc : RecvRes) (f : Frame)
    (rs : List (RecvRes × Frame)) (sl : List ProbeRes) (rq st pg : List Bool)
    (pf : List (String × String)) (pok : Bool)
    (he : e = { maxSearchRetry := msr, pings := true :: true :: true :: ps,
                recvs := (rc, f) :: rs, selects := sl, requests := rq,
                sets := st, purges := pg, probeFound := pf, probeOk := pok })
    (hsep : strsep s = (mask, some restS)) (hrest : restS ≠ "")
    (hcurr : mbus_is_secondary_address mask = false →
      0 ≤ atoi mask ∧ atoi mask ≤ 250)
    (hnext : 1 ≤ atoi restS ∧ atoi restS ≤ 250)
    (hrc : rc ≠ RecvRes.timeout) :
    (∀ (reg' : Registry) (args : Option String) (e' : Env),
       (set_address reg' args e').1 = 0 →
       ∃ rc' f', Action.recv rc' f' ∈ (set_address reg' args e').2.2.2 ∧
         mbus_frame_type f' = MBUS_FRAME_TYPE_ACK) ∧
    ((set_address reg (some s) e).1 = 1 ∧
     ∀ c n, Action.setPrimary c n ∉ (set_address reg (some s) e).2.2.2) := by
  constructor
  · intro reg' args e' h
    rcases set_address_cases reg' args e' with ⟨h1, _⟩ | ⟨mk, id, curr, nxt, e'', hst, _, htr⟩
    · rw [h1] at h
      exact absurd h (by norm_num)
    · rw [hst] at h
      rcases set_address_checked_cases reg' mk id curr nxt e'' with ⟨h2, _⟩ | ⟨e₃, hst2, _, htr2⟩
      · rw [h2] at h
        exact absurd h (by norm_num)
      · rw [hst2] at h
        obtain ⟨rc', f', hmem, hackf⟩ := set_address_final_ack reg' id curr nxt e₃ h
        exact ⟨rc', f', by rw [htr]; exact htr2 _ hmem, hackf⟩
  · subst he
    have hn : ¬(atoi restS < 1 ∨ atoi restS > 250) := by omega
    by_cases hsec : mbus_is_secondary_address mask
    · constructor <;> [skip; intro c n] <;>
        simp +decide [set_address, set_address_checked, hsep, hrest, hsec, hn,
          init_slaves, takePing, takeRecv, hrc, MBUS_ADDRESS_NETWORK_LAYER,
          MBUS_ADDRESS_BROADCAST_NOREPLY]
    · have hsec' : mbus_is_secondary_address mask = false := by
        simpa using hsec
      have hmn : ¬(atoi mask < 0 ∨ atoi mask > 250) := by
        have := hcurr hsec'
        omega
      constructor <;> [skip; intro c n] <;>
        simp +decide [set_address, set_address_checked, hsep, hrest, hsec', hn, hmn,
          init_slaves, takePing, takeRecv, hrc, MBUS_ADDRESS_NETWORK_LAYER,
          MBUS_ADDRESS_BROADCAST_NOREPLY]

theorem c4_success_requires_ack_witness :
    (∃ rc' f', Action.recv rc' f' ∈ (set_address initRegistry (some "5 10") c4OkEnv).2.2.2 ∧
       mbus_frame_type f' = MBUS_FRAME_TYPE_ACK) ∧
    (set_address initRegistry (some "5 10") c4BadEnv).1 = 1 ∧
    ∀ c n, Action.setPrimary c n ∉ (set_address initRegistry (some "5 10") c4BadEnv).2.2.2 := by
  have h := c4_success_requires_ack initRegistry "5 10" "5" "10" c4BadEnv
    0 [] RecvRes.invalid c4BadFrame [] [] [] [true] [] [] true rfl
    (by decide) (by decide) (fun _ => by decide) (by decide) (by decide)
  refine ⟨h.1 initRegistry (some "5 10") c4OkEnv ?_, h.2.1, h.2.2⟩
  simp +decide [set_address, set_address_checked, set_address_final, setRetryLoop,
    init_slaves, takePing, takeRecv, takeSet, strsep, strsepGo, isDelim,
    atoi, digitsVal, isSpaceC, mbus_is_secondary_address, isXDigit,
    reg_find_secondary, findSecGo, initRegistry, defaultReg, c4OkEnv, c4AckFrame,
    defaultFrame, mbus_frame_type, MBUS_FRAME_TYPE_ACK,
    MBUS_ADDRESS_NETWORK_LAYER, MBUS_ADDRESS_BROADCAST_NOREPLY, REG_NUM_MAX]

/-! ## Claim C8: registry round-trip after reassignment -/

/-- `reg_find_secondary`'s loop depends only on the `secondary` fields. -/
lemma findSecGo_congr :
    ∀ (l₁ l₂ : List Reg) (s : String) (i : Nat),
      l₁.map Reg.secondary = l₂.map Reg.secondary →
      findSecGo l₁ s i = findSecGo l₂ s i := by
  intro l₁
  induction l₁ with
  | nil =>
    intro l₂ s i h
    cases l₂ with
    | nil => rfl
    | cons b u => simp at h
  | cons a t ih =>
    intro l₂ s i h
    cases l₂ with
    | nil => simp at h
    | cons b u =>
      simp only [List.map_cons, List.cons.injEq] at h
      simp only [findSecGo, h.1, ih u s (i + 1) h.2]

/-- A successful `findSecGo` points inside the list, at a slot whose
`secondary` matches. -/
lemma findSecGo_bounds :
    ∀ (l : List Reg) (s : String) (i j : Nat),
      findSecGo l s i = Int.ofNat j →
      i ≤ j ∧ j - i < l.length ∧ (l.getD (j - i) defaultReg).secondary = some s := by
  intro l
  induction l with
  | nil =>
    intro s i j h
    rw [findSecGo, Int.ofNat_eq_natCast] at h
    omega
  | cons a t ih =>
    intro s i j h
    simp only [findSecGo] at h
    by_cases ha : a.secondary = some s
    · rw [if_pos ha] at h
      have hij : i = j := Int.ofNat.inj h
      subst hij
      simp [ha]
    · rw [if_neg ha] at h
      obtain ⟨h1, h2, h3⟩ := ih s (i + 1) j h
      refine ⟨by omega, by simp only [List.length_cons]; omega, ?_⟩
      have hsplit : j - i = (j - (i + 1)) + 1 := by omega
      rw [hsplit, List.getD_cons_succ]
      exact h3

/-- Overwriting a slot's `primary` leaves all `secondary` fields alone. -/
lemma map_secondary_set_primary (l : List Reg) :
    ∀ (k : Nat) (p : Int), k < l.length →
      ((l.set k { l.getD k defaultReg with primary := p }).map Reg.secondary)
        = l.map Reg.secondary := by
  induction l with
  | nil => intro k p h; simp at h
  | cons a t ih =>
    intro k p h
    cases k with
    | zero => simp [List.set]
    | succ n =>
      simp only [List.getD_cons_succ, List.set_cons_succ, List.map_cons,
        List.cons.injEq, true_and]
      exact ih n p (by simpa using h)

/-- `getD` of the slot just overwritten. -/
lemma getD_set_self (l : List Reg) :
    ∀ (k : Nat) (x : Reg) (d : Reg), k < l.length → (l.set k x).getD k d = x := by
  induction l with
  | nil => intro k x d h; simp at h
  | cons a t ih =>
    intro k x d h
    cases k with
    | zero => simp [List.set]
    | succ n =>
      simp only [List.set_cons_succ, List.getD_cons_succ]
      exact ih n x d (by simpa using h)

/-- With valid arguments (a well-formed mask, a non-empty second token),
`set_address` reduces to its middle phase on the looked-up registry id. -/
lemma set_address_secondary_unfold (reg : Registry) (s mask restS : String)
    (e : Env)
    (hsep : strsep s = (mask, some restS)) (hrest : restS ≠ "")
    (hsec : mbus_is_secondary_address mask = true) :
    set_address reg (some s) e
      = set_address_checked reg mask (reg_find_secondary reg mask)
          MBUS_ADDRESS_NETWORK_LAYER (atoi restS) e := by
  simp only [set_address, hsep]
  simp [hrest, hsec]

/-- C8: when `set_address`, invoked with the exact secondary address of
an existing Device Registry entry (index `i`, found by lookup), succeeds
with new primary address `p = atoi restS`, a subsequent lookup by that
secondary address still returns entry `i`, and that entry's `primary`
field now equals `p`.  (`hcap` is the registry invariant `num ≤ 50`,
maintained by `reg_add`.) -/
theorem c8_roundtrip_primary_updated
    (reg : Registry) (s mask restS : String) (e : Env) (i : Nat)
    (hsep : strsep s = (mask, some restS)) (hrest : restS ≠ "")
    (hsec : mbus_is_secondary_address mask = true)
    (hfind : reg_find_secondary reg mask = Int.ofNat i)
    (hcap : reg.num ≤ REG_NUM_MAX)
    (hsucc : (set_address reg (some s) e).1 = 0) :
    reg_find_secondary (set_address reg (some s) e).2.1 mask = Int.ofNat i ∧
    (((set_address reg (some s) e).2.1).slots.getD i defaultReg).primary
      = atoi restS := by
  have hunf := set_address_secondary_unfold reg s mask restS e hsep hrest hsec
  rw [hunf] at hsucc ⊢
  rw [hfind] at hsucc ⊢
  obtain ⟨-, hblt, -⟩ :=
    findSecGo_bounds (reg.slots.take reg.num) mask 0 i
      (by simpa [reg_find_secondary] using hfind)
  rw [List.length_take] at hblt
  have hi_num : i < reg.num := by omega
  have hi_len : i < reg.slots.length := by omega
  rcases set_address_checked_cases reg mask (Int.ofNat i)
      MBUS_ADDRESS_NETWORK_LAYER (atoi restS) e with ⟨h1, _⟩ | ⟨e', hst, hreg, _⟩
  · rw [h1] at hsucc
    exact absurd hsucc (by norm_num)
  · rw [hst] at hsucc
    rw [hreg]
    have h50 : i < REG_NUM_MAX := by omega
    have hid : Int.ofNat i > -1 ∧ Int.ofNat i < (REG_NUM_MAX : Int) := by
      rw [Int.ofNat_eq_natCast]
      constructor
      · exact lt_of_lt_of_le (by norm_num) (Int.natCast_nonneg i)
      · exact_mod_cast h50
    rw [set_address_final_success reg _ _ _ e' hsucc hid]
    have htn : (Int.ofNat i).toNat = i := rfl
    constructor
    · show findSecGo _ mask 0 = Int.ofNat i
      rw [show ({ reg with slots := reg.slots.set (Int.ofNat i).toNat { reg.slots.getD (Int.ofNat i).toNat defaultReg with primary := atoi restS } } : Registry).num = reg.num from rfl]
      have hmap : (reg.slots.set i { reg.slots.getD i defaultReg with primary := atoi restS }).map Reg.secondary = reg.slots.map Reg.secondary :=
        map_secondary_set_primary reg.slots i (atoi restS) hi_len
      have := findSecGo_congr
        ((reg.slots.set i { reg.slots.getD i defaultReg with primary := atoi restS }).take reg.num)
        (reg.slots.take reg.num) mask 0
        (by rw [List.map_take, List.map_take, hmap])
      rw [htn]
      rw [this]
      simpa [reg_find_secondary] using hfind
    · rw [htn]
      rw [getD_set_self reg.slots i _ defaultReg hi_len]

theorem c8_roundtrip_primary_updated_witness :
    reg_find_secondary
      (set_address c8Reg (some "1234567890ABCDEF 10") c8Env).2.1
      "1234567890ABCDEF" = Int.ofNat 0 ∧
    (((set_address c8Reg (some "1234567890ABCDEF 10") c8Env).2.1).slots.getD 0
        defaultReg).primary = 10 := by
  have h := c8_roundtrip_primary_updated c8Reg "1234567890ABCDEF 10"
    "1234567890ABCDEF" "10" c8Env 0 (by decide) (by decide) (by decide)
    (by decide) (by decide) ?success
  · exact ⟨h.1, by rw [h.2]; decide⟩
  · simp +decide [set_address, set_address_checked, set_address_final, setRetryLoop,
      init_slaves, takePing, takeRecv, takeSet, secondary_select, takeSelect,
      strsep, strsepGo, isDelim, atoi, digitsVal, isSpaceC,
      mbus_is_secondary_address, isXDigit, reg_find_secondary, findSecGo,
      c8Reg, c8Env, c8AckFrame, defaultFrame, defaultReg, mbus_frame_type,
      MBUS_FRAME_TYPE_ACK, MBUS_ADDRESS_NETWORK_LAYER,
      MBUS_ADDRESS_BROADCAST_NOREPLY, REG_NUM_MAX]

/-! ## Claim C10: registry primaries default to 0 until reassignment -/

/-- Overwriting a slot's `secondary` leaves all `primary` fields alone
(this is what `reg_add` does to slot `num`). -/
lemma map_primary_set_secondary (l : List Reg) :
    ∀ (k : Nat) (s' : Option String),
      ((l.set k { l.getD k defaultReg with secondary := s' }).map Reg.primary)
        = l.map Reg.primary := by
  induction l with
  | nil => intro k s'; rfl
  | cons a t ih =>
    intro k s'
    cases k with
    | zero => simp [List.set]
    | succ n =>
      simp only [List.getD_cons_succ, List.set_cons_succ, List.map_cons,
        List.cons.injEq, true_and]
      exact ih n s'

/-- An element of `l.set k x` is an old element or the new one. -/
lemma mem_set_reg (l : List Reg) :
    ∀ (k : Nat) (x y : Reg), y ∈ l.set k x → y ∈ l ∨ y = x := by
  induction l with
  | nil => intro k x y h; simp [List.set] at h
  | cons a t ih =>
    intro k x y h
    cases k with
    | zero =>
      simp only [List.set_cons_zero, List.mem_cons] at h
      rcases h with h | h
      · exact Or.inr h
      · exact Or.inl (List.mem_cons_of_mem a h)
    | succ n =>
      simp only [List.set_cons_succ, List.mem_cons] at h
      rcases h with h | h
      · exact Or.inl (h ▸ List.mem_cons_self a t)
      · rcases ih n x y h with h' | h'
        · exact Or.inl (List.mem_cons_of_mem a h')
        · exact Or.inr h'

/-- `getD` of an all-zero-primary list has primary 0. -/
lemma getD_primary_zero (l : List Reg) :
    ∀ (j : Nat), (∀ x ∈ l, x.primary = 0) → (l.getD j defaultReg).primary = 0 := by
  induction l with
  | nil => intro j _; rfl
  | cons a t ih =>
    intro j h
    cases j with
    | zero => exact h a (List.mem_cons_self a t)
    | succ n =>
      rw [List.getD_cons_succ]
      exact ih n (fun x hx => h x (List.mem_cons_of_mem a hx))

/-- `reg_add` preserves the all-primaries-zero invariant. -/
lemma reg_add_allZero (r : Registry) (s : String)
    (h : ∀ x ∈ r.slots, x.primary = 0) :
    ∀ x ∈ (reg_add r s).2.slots, x.primary = 0 := by
  unfold reg_add
  split
  · exact h
  · split
    · exact h
    · intro y hy
      rcases mem_set_reg r.slots r.num _ y hy with hy' | hy'
      · exact h y hy'
      · rw [hy']
        exact getD_primary_zero r.slots r.num h

/-- The registry produced by the probe callback is exactly `reg_add`'s. -/
lemma found_device_reg (r : Registry) (a m : String) :
    (found_device r a m).2.1 = (reg_add r a).2 := by
  unfold found_device
  by_cases hr : (reg_add r a).1 ≠ 0 <;> simp [hr]

/-- The probe callback's trace is empty or a single "Found" line. -/
lemma found_device_trace (r : Registry) (a m : String) :
    (found_device r a m).2.2 = [] ∨
    (found_device r a m).2.2 = [Action.logFound a m] := by
  unfold found_device
  by_cases hr : (reg_add r a).1 ≠ 0 <;> simp [hr]

/-- The probe callback preserves the all-primaries-zero invariant. -/
lemma runProbe_allZero (ds : List (String × String)) :
    ∀ (r : Registry), (∀ x ∈ r.slots, x.primary = 0) →
      ∀ x ∈ (runProbe r ds).1.slots, x.primary = 0 := by
  induction ds with
  | nil => intro r h; exact h
  | cons d rest ih =>
    intro r h
    rcases d with ⟨a, m⟩
    have hfd : ∀ x ∈ (found_device r a m).2.1.slots, x.primary = 0 := by
      rw [found_device_reg]
      exact reg_add_allZero r a h
    exact ih (found_device r a m).2.1 hfd

/-- `init_slaves` only pings. -/
lemma init_slaves_actions (e : Env) :
    ∀ x ∈ (init_slaves e).2.2, ∃ a p, x = Action.ping a p := by
  intro x hx
  unfold init_slaves at hx
  by_cases h1 : (takePing e).1 = false
  · simp [h1] at hx
    exact ⟨_, _, hx⟩
  · by_cases h2 : (takePing (takePing e).2).1 = false
    · simp [h1, h2] at hx
      rcases hx with hx | hx <;> exact ⟨_, _, hx⟩
    · simp [h1, h2] at hx
      rcases hx with hx | hx <;> exact ⟨_, _, hx⟩

/-- The probe callback only logs "Found" lines. -/
lemma runProbe_actions (ds : List (String × String)) :
    ∀ (r : Registry), ∀ x ∈ (runProbe r ds).2, ∃ a m, x = Action.logFound a m := by
  induction ds with
  | nil => intro r x hx; simp [runProbe] at hx
  | cons d rest ih =>
    intro r x hx
    rcases d with ⟨a, m⟩
    simp only [runProbe, List.mem_append] at hx
    rcases hx with hx | hx
    · rcases found_device_trace r a m with ht | ht
      · rw [ht] at hx
        simp at hx
      · rw [ht] at hx
        simp at hx
        exact ⟨a, m, hx⟩
    · exact ih _ x hx

/-- C10: (1) `reg_add` never writes any `primary` field — an entry it
creates keeps the slot's zero-initialised default; (2) hence in a
registry built from probe discoveries alone every slot's primary is 0;
(3) a `set_address` run that does not succeed leaves the registry
entirely unchanged, so a primary stays 0 until a successful reassignment
overwrites it; (4) `probe_devices` prints primary 0 for every entry of a
never-reassigned registry. -/
theorem c10_primary_zero_invariant :
    (∀ (r : Registry) (s : String),
       ((reg_add r s).2).slots.map Reg.primary = r.slots.map Reg.primary) ∧
    (∀ (ds : List (String × String)) (x : Reg),
       x ∈ (runProbe initRegistry ds).1.slots → x.primary = 0) ∧
    (∀ (r : Registry) (args : Option String) (e : Env),
       (set_address r args e).1 ≠ 0 → (set_address r args e).2.1 = r) ∧
    (∀ (r : Registry) (args : Option String) (e : Env) (p : Int)
       (sec : Option String),
       (∀ x ∈ r.slots, x.primary = 0) →
       Action.printEntry p sec ∈ (probe_devices r args e).2.2.2 → p = 0) := by
  refine ⟨?_, ?_, ?_, ?_⟩
  · intro r s
    unfold reg_add
    split
    · rfl
    · split
      · rfl
      · exact map_primary_set_secondary r.slots r.num (some s)
  · intro ds x hx
    refine runProbe_allZero ds initRegistry ?_ x hx
    intro y hy
    rw [List.eq_of_mem_replicate hy]
    rfl
  · intro r args e h
    rcases set_address_cases r args e with ⟨h1, h2⟩ | ⟨mk, id, curr, nxt, e', hst, hreg, _⟩
    · exact h2
    · rw [hreg]
      rcases set_address_checked_cases r mk id curr nxt e'
          with ⟨h3, h4⟩ | ⟨e'', hst2, hreg2, _⟩
      · exact h4
      · rw [hreg2]
        apply set_address_final_fail
        rw [hst, hst2] at h
        exact h
  · intro r args e p sec hz hmem
    unfold probe_devices at hmem
    by_cases h1 : (init_slaves e).1 ≠ 0
    · simp only [if_pos h1] at hmem
      obtain ⟨a, q, hq⟩ := init_slaves_actions e _ hmem
      exact absurd hq (by simp)
    · simp only [if_neg h1] at hmem
      by_cases h2 : (!(mbus_is_secondary_address (args.getD "FFFFFFFFFFFFFFFF"))) = true
      · simp only [if_pos h2] at hmem
        obtain ⟨a, q, hq⟩ := init_slaves_actions e _ hmem
        exact absurd hq (by simp)
      · simp only [if_neg h2] at hmem
        by_cases h3 : (init_slaves e).2.1.probeOk = false
        · simp only [if_pos h3] at hmem
          simp only [List.mem_append] at hmem
          rcases hmem with hmem | hmem
          · obtain ⟨a, q, hq⟩ := init_slaves_actions e _ hmem
            exact absurd hq (by simp)
          · obtain ⟨a, m, hq⟩ := runProbe_actions _ _ _ hmem
            exact absurd hq (by simp)
        · simp only [if_neg h3] at hmem
          simp only [List.append_assoc, List.mem_append] at hmem
          rcases hmem with hmem | hmem | hmem
          · obtain ⟨a, q, hq⟩ := init_slaves_actions e _ hmem
            exact absurd hq (by simp)
          · obtain ⟨a, m, hq⟩ := runProbe_actions _ _ _ hmem
            exact absurd hq (by simp)
          · have hall : ∀ x ∈ (runProbe r (init_slaves e).2.1.probeFound).1.slots,
                x.primary = 0 := runProbe_allZero _ r hz
            simp only [List.mem_map] at hmem
            obtain ⟨y, hy, hq⟩ := hmem
            have hy' : y ∈ (runProbe r (init_slaves e).2.1.probeFound).1.slots :=
              List.take_subset _ _ hy
            have := hall y hy'
            cases hq
            exact this

theorem c10_primary_zero_invariant_witness :
    ((reg_add c10WitReg "BB").2).slots.map Reg.primary
      = c10WitReg.slots.map Reg.primary ∧
    ({ primary := 0, secondary := some "0123456789ABCDEF" } : Reg).primary = 0 ∧
    (set_address initRegistry none c10FailEnv).2.1 = initRegistry ∧
    (0 : Int) = 0 := by
  refine ⟨c10_primary_zero_invariant.1 c10WitReg "BB", ?_, ?_, ?_⟩
  · exact c10_primary_zero_invariant.2.1 [("0123456789ABCDEF", "FFFFFFFFFFFFFFFF")]
      { primary := 0, secondary := some "0123456789ABCDEF" }
      (by set_option maxHeartbeats 4000000 in decide)
  · exact c10_primary_zero_invariant.2.2.1 initRegistry none c10FailEnv
      (by decide)
  · exact c10_primary_zero_invariant.2.2.2 initRegistry (some "FFFFFFFFFFFFFFFF")
      c10Env 0 (some "0123456789ABCDEF")
      (fun x hx => by rw [List.eq_of_mem_replicate hx]; rfl)
      (by set_option maxHeartbeats 4000000 in decide)

end MbusMaster
